import Mathlib

/-!
Shallow embedding of the Froggit level simulation (src/consts.py, src/models.py,
src/lanes.py, src/level.py, plus the geometry of src/game2d/gobject.py).

Numbers are embedded as exact rationals.  Every object constructed by the game
has a rotation angle that is a multiple of 90 degrees (the frog uses the
constants FROG_NORTH = 180, FROG_WEST = -90 -> 270, FROG_EAST = 90,
FROG_SOUTH = 0; lane obstacles use 0 or 180), so the angle field is embedded
as a four-valued type and the fast bounding-box path of GObject._bbox,
GObject.contains and GObject.collides is the one embedded.
-/

namespace Froggit

/-- GRID_SIZE from consts.py. -/
def GRID_SIZE : ℚ := 64

/-- FROG_SPEED from consts.py (seconds to cross one grid cell). -/
def FROG_SPEED : ℚ := 1/4

/-- FROG_LIVES from consts.py. -/
def FROG_LIVES : ℕ := 3

/-- FROG_REST from consts.py (sprite frame at rest). -/
def FROG_REST : ℤ := 0

/-- FROG_STRETCHED from consts.py (sprite frame when fully stretched). -/
def FROG_STRETCHED : ℤ := 4

/-- Rotation angles occurring in the game, all multiples of 90 degrees
(values after Python's `% 360`). -/
inductive Angle where
  | deg0
  | deg90
  | deg180
  | deg270
  deriving DecidableEq, Repr

/-- Hitbox inset offsets (left, top, right, bottom), as in GObject.hitbox. -/
structure Hitbox where
  l : ℚ
  t : ℚ
  r : ℚ
  b : ℚ
  deriving DecidableEq, Repr

/-- Zero insets, the default hitbox (0,0,0,0). -/
def Hitbox.zero : Hitbox := ⟨0, 0, 0, 0⟩

/-- The geometric state of a GObject: center position, size, rotation angle
and hitbox insets. -/
structure GObj where
  x : ℚ
  y : ℚ
  width : ℚ
  height : ℚ
  angle : Angle
  hitbox : Hitbox
  deriving DecidableEq, Repr

/-- GObject._bbox (gobject.py): the inset-adjusted bounding box (l, t, r, b)
for the four 90-degree rotations. -/
def GObj.bbox (o : GObj) : ℚ × ℚ × ℚ × ℚ :=
  let hit := o.hitbox
  let w := o.width / 2
  let h := o.height / 2
  match o.angle with
  | .deg0 => (o.x + hit.l - w, o.y - hit.t + h, o.x - hit.r + w, o.y + hit.b - h)
  | .deg90 => (o.x + hit.t - h, o.y + hit.r - w, o.x - hit.b + h, o.y - hit.l + w)
  | .deg180 => (o.x + hit.r - w, o.y - hit.b + h, o.x - hit.l + w, o.y + hit.t - h)
  | .deg270 => (o.x + hit.b - h, o.y + hit.l - w, o.x - hit.t + h, o.y - hit.r + w)

/-- GObject.contains (gobject.py), fast path for 90-degree rotations:
the point lies in the inset-adjusted bounding box (closed intervals). -/
def GObj.containsPt (o : GObj) (p : ℚ × ℚ) : Bool :=
  let (l, t, r, b) := o.bbox
  decide (l ≤ p.1) && decide (p.1 ≤ r) && decide (b ≤ p.2) && decide (p.2 ≤ t)

/-- GObject.collides (gobject.py), fast path for 90-degree rotations:
interval overlap of the two inset-adjusted bounding boxes (closed intervals,
`l1 <= l0 <= r1 or l0 <= l1 <= r0` on each axis). -/
def GObj.collides (a b : GObj) : Bool :=
  let (l0, t0, r0, b0) := b.bbox
  let (l1, t1, r1, b1) := a.bbox
  let isx := (decide (l1 ≤ l0) && decide (l0 ≤ r1)) || (decide (l0 ≤ l1) && decide (l1 ≤ r0))
  let isy := (decide (b1 ≤ b0) && decide (b0 ≤ t1)) || (decide (b0 ≤ b1) && decide (b1 ≤ t0))
  isx && isy

/-- Python's built-in round (half-to-even), on exact rationals. -/
def pyRound (q : ℚ) : ℤ :=
  let f := ⌊q⌋
  let r := q - (f : ℚ)
  if r < 1/2 then f
  else if 1/2 < r then f + 1
  else if f % 2 = 0 then f else f + 1

/-- The Frog model (models.py Frog, a GSprite): pixel position, facing angle,
current sprite frame, visibility flag, sprite frame size and the per-frame
hitbox table loaded from the hitbox dictionary. -/
structure Frog where
  x : ℚ
  y : ℚ
  angle : Angle
  frame : ℤ
  visible : Bool
  width : ℚ
  height : ℚ
  hitboxes : List Hitbox
  deriving DecidableEq, Repr

/-- The current hitbox of the frog sprite: GSprite keeps
`hitbox = hitboxes[frame]` in sync with the frame (gsprite.py). -/
def Frog.curHitbox (f : Frog) : Hitbox :=
  f.hitboxes.getD f.frame.toNat Hitbox.zero

/-- View of the frog as a geometric object, for contains/collides tests. -/
def Frog.toGObj (f : Frog) : GObj :=
  ⟨f.x, f.y, f.width, f.height, f.angle, f.curHitbox⟩

/-- Directional keys ('left', 'right', 'up', 'down'). -/
inductive Key where
  | left
  | right
  | up
  | down
  deriving DecidableEq, Repr

/-- Facing angle set by the Level key helpers: FROG_WEST = -90 (i.e. 270),
FROG_EAST = 90, FROG_NORTH = 180, FROG_SOUTH = 0. -/
def Key.frogAngle : Key → Angle
  | .left => .deg270
  | .right => .deg90
  | .up => .deg180
  | .down => .deg0

/-- Frog._determineFinalX (models.py). -/
def Frog.determineFinalX (f : Frog) (dir : Key) : ℚ :=
  match dir with
  | .left => f.x - GRID_SIZE
  | .right => f.x + GRID_SIZE
  | _ => f.x

/-- Frog._determineFinalY (models.py). -/
def Frog.determineFinalY (f : Frog) (dir : Key) : ℚ :=
  match dir with
  | .up => f.y + GRID_SIZE
  | .down => f.y - GRID_SIZE
  | _ => f.y

/-- The frame selected by Frog._determineXFrame / Frog._determineYFrame
(models.py): position v on the active axis against the initial and final
values; first half stretches from FROG_REST to FROG_STRETCHED, second half
relaxes back.  The direction test in the source is always true on the branch
that calls the helper, so it is not a parameter here.  Returns the previous
frame when initial = final (the source leaves self.frame untouched then). -/
def slideFrame (initial final v : ℚ) (old : ℤ) : ℤ :=
  if final - initial ≠ 0 then
    let frac := 2 * (v - initial) / (final - initial)
    if frac < 1 then pyRound ((FROG_REST : ℚ) + frac * ((FROG_STRETCHED : ℚ) - (FROG_REST : ℚ)))
    else pyRound ((FROG_STRETCHED : ℚ) + (frac - 1) * ((FROG_REST : ℚ) - (FROG_STRETCHED : ℚ)))
  else old

/-- The suspended state of the Frog.animateSlide generator (models.py) right
after priming with next(): initial and final positions are captured, no
displacement has happened yet.  `vertical` records which branch of the
generator runs (the `final_y == initial_y` test selects the horizontal
branch for left/right, the `final_x == initial_x` test the vertical branch
for up/down). -/
structure Anim where
  vertical : Bool
  initX : ℚ
  finalX : ℚ
  initY : ℚ
  finalY : ℚ
  deriving DecidableEq, Repr

/-- Frog.animateSlide (models.py) up to its first yield: captures the
initial and final positions and selects the branch.  (The dt argument of the
source is overwritten by the first yield before use, so it is not modelled;
the jump sound side effect is outside the state.) -/
def animateSlide (f : Frog) (dir : Key) : Anim :=
  let iy := f.y
  let fy := f.determineFinalY dir
  let ix := f.x
  let fx := f.determineFinalX dir
  if fy = iy then ⟨false, ix, fx, iy, fy⟩ else ⟨true, ix, fx, iy, fy⟩

/-- One resumption of the Frog.animateSlide generator with a time delta:
move by `steps * dt` on the active axis, clamp to the destination and stop
when the accumulated displacement reaches GRID_SIZE, then recompute the
sprite frame.  Returns the updated frog and whether the generator finished
(raising StopIteration at that send). -/
def animStep (a : Anim) (f : Frog) (dt : ℚ) : Frog × Bool :=
  if a.vertical then
    if |f.y + (a.finalY - a.initY) / FROG_SPEED * dt - a.initY| ≥ GRID_SIZE then
      ({ f with y := a.finalY,
                frame := slideFrame a.initY a.finalY a.finalY f.frame }, true)
    else
      ({ f with y := f.y + (a.finalY - a.initY) / FROG_SPEED * dt,
                frame := slideFrame a.initY a.finalY
                  (f.y + (a.finalY - a.initY) / FROG_SPEED * dt) f.frame }, false)
  else
    if |f.x + (a.finalX - a.initX) / FROG_SPEED * dt - a.initX| ≥ GRID_SIZE then
      ({ f with x := a.finalX,
                frame := slideFrame a.initX a.finalX a.finalX f.frame }, true)
    else
      ({ f with x := f.x + (a.finalX - a.initX) / FROG_SPEED * dt,
                frame := slideFrame a.initX a.finalX
                  (f.x + (a.finalX - a.initX) / FROG_SPEED * dt) f.frame }, false)

/-- Feed a list of successive time deltas to a slide animation, stopping at
the send on which the generator finishes.  Returns the final frog and
whether the animation reported completion. -/
def slideRun (a : Anim) (f : Frog) : List ℚ → Frog × Bool
  | [] => (f, false)
  | d :: ds =>
    let (f1, fin) := animStep a f d
    if fin then (f1, true) else slideRun a f1 ds

/-- The kind of a lane, selected by the `type` string of the lane
dictionary (level.py __init__). -/
inductive LaneKind where
  | grass
  | road
  | water
  | hedge
  deriving DecidableEq, Repr

/-- A lane (lanes.py): the background tile, the obstacle objects, the speed,
the offscreen buffer and the window width, together with the subclass state:
Road._carCollided, and Hedge._openexits / Hedge._closedexits /
Hedge._safefrogs.  Obstacles are identified by their index in `objs` (the
Python lists hold references to the same objects). -/
structure Lane where
  kind : LaneKind
  tile : GObj
  objs : List GObj
  laneSpeed : ℚ
  buffer : ℚ
  windowWidth : ℚ
  carCollided : Bool
  openexits : List ℕ
  closedexits : List ℕ
  safefrogs : List (ℚ × ℚ)
  deriving DecidableEq, Repr

/-- Lane._wrapAround (lanes.py) for a single obstacle x-position: reinsert
past the offscreen edge on the opposite side, keeping the overshoot `d`. -/
def wrapX (speed buffer width x : ℚ) : ℚ :=
  let rightEdge := -buffer * GRID_SIZE
  let leftEdge := width + buffer * GRID_SIZE
  if speed < 0 then
    (if x ≤ rightEdge then leftEdge + (x - rightEdge) else x)
  else if speed > 0 then
    (if x ≥ leftEdge then rightEdge + (x - leftEdge) else x)
  else x

/-- Lane.update (lanes.py): shift every obstacle by `speed * dt`, then apply
Lane._wrapAround to every obstacle.  The two source loops act independently
on each obstacle, so they are fused into one map. -/
def Lane.update (l : Lane) (dt : ℚ) : Lane :=
  { l with objs := l.objs.map fun o =>
      { o with x := wrapX l.laneSpeed l.buffer l.windowWidth (o.x + l.laneSpeed * dt) } }

/-- Road._carCollide + Road.getCarCollided (lanes.py): when the frog is
visible, recompute the `_carCollided` cache from the hitbox overlaps and
return it; when invisible, return the cache unchanged. -/
def Road.getCarCollided (l : Lane) (f : Frog) : Lane × Bool :=
  if f.visible then
    let c := l.objs.any fun car => car.collides f.toGObj
    ({ l with carCollided := c }, c)
  else (l, l.carCollided)

/-- Water.frogOnLog (lanes.py): the frog's center point is contained in some
log. -/
def Water.frogOnLog (l : Lane) (f : Frog) : Bool :=
  l.objs.any fun log => log.containsPt (f.x, f.y)

/-- Water.frogDrowned (lanes.py): the lane tile collides with the frog's
hitbox and the frog is not on a log. -/
def Water.frogDrowned (l : Lane) (f : Frog) : Bool :=
  l.tile.collides f.toGObj && !(Water.frogOnLog l f)

/-- The look-ahead point one grid cell from the frog in the direction of the
key, as computed in Hedge.goingToObstacle, Hedge.willReachExit and
Level._goingToHedge. -/
def destPoint (k : Key) (f : Frog) : ℚ × ℚ :=
  match k with
  | .up => (f.x, f.y + GRID_SIZE)
  | .down => (f.x, f.y - GRID_SIZE)
  | .left => (f.x - GRID_SIZE, f.y)
  | .right => (f.x + GRID_SIZE, f.y)

/-- Hedge.goingToObstacle (lanes.py): the destination cell falls inside some
lane object that is not in the open-exit list. -/
def Hedge.goingToObstacle (l : Lane) (k : Key) (f : Frog) : Bool :=
  let point := destPoint k f
  l.objs.enum.any fun io => io.2.containsPt point && !(l.openexits.contains io.1)

/-- Hedge.willReachExit (lanes.py): the destination cell falls inside some
open exit and the key is not 'down'. -/
def Hedge.willReachExit (l : Lane) (f : Frog) (k : Key) : Bool :=
  let point := destPoint k f
  l.objs.enum.any fun io =>
    io.2.containsPt point && l.openexits.contains io.1 && decide (k ≠ .down)

/-- Hedge._frogInObstacles / Hedge.getFrogAtObstacle (lanes.py): some lane
object contains the frog's center. -/
def Hedge.getFrogAtObstacle (l : Lane) (f : Frog) : Bool :=
  l.objs.any fun o => o.containsPt (f.x, f.y)

/-- Loop body of Hedge._checkReachedExit (lanes.py): scan the objects in
order; the first open exit containing the point (with key not 'down') is
closed — removed from the open list, appended to the closed list, a safe
frog is recorded at its position — and the scan stops with result true.
An open exit containing the point with key 'down' instead nudges the frog
one cell up and the scan continues. -/
def creLoop (point : ℚ × ℚ) (k : Key) :
    List (ℕ × GObj) → Lane → ℚ → Lane × ℚ × Bool
  | [], l, fy => (l, fy, false)
  | (i, o) :: rest, l, fy =>
    if o.containsPt point && l.openexits.contains i && decide (k ≠ .down) then
      ({ l with openexits := l.openexits.erase i,
                closedexits := l.closedexits ++ [i],
                safefrogs := l.safefrogs ++ [(o.x, o.y)] }, fy, true)
    else if o.containsPt point && l.openexits.contains i && decide (k = .down) then
      creLoop point k rest l (fy + GRID_SIZE)
    else creLoop point k rest l fy

/-- Hedge._checkReachedExit + Hedge.getReachedExit (lanes.py): returns the
updated lane, the (possibly nudged) frog and whether an exit was reached. -/
def Hedge.getReachedExit (l : Lane) (f : Frog) (k : Key) : Lane × Frog × Bool :=
  ((creLoop (f.x, f.y) k l.objs.enum l f.y).1,
   { f with y := (creLoop (f.x, f.y) k l.objs.enum l f.y).2.1 },
   (creLoop (f.x, f.y) k l.objs.enum l f.y).2.2)

/-- Hedge._exitsFull + Hedge.isHedgeFull (lanes.py): all exits are taken
when the open-exit list is empty. -/
def Hedge.isHedgeFull (l : Lane) : Bool :=
  decide (l.openexits = [])

/-- Python runtime exceptions that the level code can raise. -/
inductive Err where
  | nameError
  | indexError
  deriving DecidableEq, Repr

/-- The state of a Level (level.py): grid size, lanes bottom-to-top, the
frog, the remaining lives (the length of the `_lives` image list), the
status flags and the optional in-progress slide animation. -/
structure LevelState where
  widthCells : ℕ
  heightCells : ℕ
  lanes : List Lane
  frog : Frog
  lives : ℕ
  frogKilled : Bool
  gameOver : Bool
  inExit : Bool
  gameWon : Bool
  animator : Option Anim
  deriving DecidableEq, Repr

/-- Level.getLevelWidth in pixels: `getLevelWidth() * GRID_SIZE`. -/
def LevelState.widthPx (st : LevelState) : ℚ := (st.widthCells : ℚ) * GRID_SIZE

/-- Level.getLevelHeight in pixels: `getLevelHeight() * GRID_SIZE`. -/
def LevelState.heightPx (st : LevelState) : ℚ := (st.heightCells : ℚ) * GRID_SIZE

/-- Level._checkDeath (level.py): drowned in some water lane, or beyond
either horizontal bound of the level. -/
def checkDeath (st : LevelState) : Bool :=
  (st.lanes.any fun l => decide (l.kind = .water) && Water.frogDrowned l st.frog)
    || decide (st.frog.x > st.widthPx) || decide (st.frog.x < 0)

/-- Level._frogDies (level.py): hide the frog, set the killed flag and
delete the last life image; `del self._lives[-1]` raises IndexError when
the list is already empty.  The game-over flag is set only when the list
becomes empty. -/
def frogDies (st : LevelState) : Except Err LevelState :=
  if st.lives = 0 then .error .indexError
  else .ok { st with
    frog := { st.frog with visible := false },
    frogKilled := true,
    lives := st.lives - 1,
    gameOver := if st.lives - 1 = 0 then true else st.gameOver }

/-- Loop of Level._goingToHedge (level.py): the first hedge lane whose tile
contains the destination point decides the result — blocked unless the
destination is at a lane object (Hedge.goingToObstacle) or the move will
reach an open exit (Hedge.willReachExit). -/
def gthLoop (point : ℚ × ℚ) (k : Key) (f : Frog) : List Lane → Bool
  | [] => false
  | l :: ls =>
    if l.kind = .hedge && l.tile.containsPt point then
      !(Hedge.goingToObstacle l k f || Hedge.willReachExit l f k)
    else gthLoop point k f ls

/-- Level._goingToHedge (level.py). -/
def goingToHedge (st : LevelState) (k : Key) : Bool :=
  gthLoop (destPoint k st.frog) k st.frog st.lanes

/-- Level._leftKey (level.py): face west; unless blocked by the hedge,
start a slide when `final_x > 0`, then run the death check. -/
def leftKey (st : LevelState) : Except Err LevelState :=
  let st := { st with frog := { st.frog with angle := Key.frogAngle .left } }
  if goingToHedge st .left then .ok st
  else
    let st :=
      if st.frog.x - GRID_SIZE > 0 then
        { st with animator := some (animateSlide st.frog .left) }
      else st
    if checkDeath st then frogDies st else .ok st

/-- Level._rightKey (level.py): face east; unless blocked by the hedge,
start a slide when `final_x < width`, then run the death check. -/
def rightKey (st : LevelState) : Except Err LevelState :=
  let st := { st with frog := { st.frog with angle := Key.frogAngle .right } }
  if goingToHedge st .right then .ok st
  else
    let st :=
      if st.frog.x + GRID_SIZE < st.widthPx then
        { st with animator := some (animateSlide st.frog .right) }
      else st
    if checkDeath st then frogDies st else .ok st

/-- Level._upKey (level.py): face north; unless blocked by the hedge,
start a slide when `final_y < height`, then run the death check. -/
def upKey (st : LevelState) : Except Err LevelState :=
  let st := { st with frog := { st.frog with angle := Key.frogAngle .up } }
  if goingToHedge st .up then .ok st
  else
    let st :=
      if st.frog.y + GRID_SIZE < st.heightPx then
        { st with animator := some (animateSlide st.frog .up) }
      else st
    if checkDeath st then frogDies st else .ok st

/-- Level._downKey (level.py): face south; unless blocked by the hedge, the
guard `final_y > 0 and not self.isInExit(key) and not self._frogInHedge()`
is evaluated left to right — when `final_y > 0` holds, `self.isInExit(key)`
reads the name `key`, which is not defined in _downKey's scope (the method
only takes dt), so the attempt raises NameError before anything else can
run. -/
def downKey (st : LevelState) : Except Err LevelState :=
  let st := { st with frog := { st.frog with angle := Key.frogAngle .down } }
  if goingToHedge st .down then .ok st
  else if st.frog.y - GRID_SIZE > 0 then .error .nameError
  else if checkDeath st then frogDies st else .ok st

/-- The key dispatch of Level.update (level.py): one directional move
attempt. -/
def moveKey (st : LevelState) : Key → Except Err LevelState
  | .left => leftKey st
  | .right => rightKey st
  | .up => upKey st
  | .down => downKey st

/-- Level._moveFrogOnLog (level.py): each water lane that currently reports
the frog on a log carries the frog by `speed * dt`; the scan sees the frog
position updated by earlier lanes in the list. -/
def moveFrogOnLog (st : LevelState) (dt : ℚ) : LevelState :=
  { st with frog := st.lanes.foldl (fun f l =>
      if l.kind = .water && Water.frogOnLog l f then
        { f with x := f.x + l.laneSpeed * dt }
      else f) st.frog }

/-- Level.update (level.py): advance an in-progress slide (clearing the
animator when it raises StopIteration), otherwise dispatch the key helper
(or just the death check when no key); then advance every lane and carry
the frog on logs.  A Python exception in the first phase propagates out of
update before the lanes move. -/
def update (st : LevelState) (dt : ℚ) (k : Option Key) : Except Err LevelState := do
  let st1 ←
    match st.animator with
    | some a =>
      let (f1, fin) := animStep a st.frog dt
      pure { st with frog := f1, animator := if fin then none else some a }
    | none =>
      match k with
      | some key => moveKey st key
      | none => if checkDeath st then frogDies st else pure st
  let st2 := { st1 with lanes := st1.lanes.map (Lane.update · dt) }
  pure (moveFrogOnLog st2 dt)

/-- Loop of Level._checkFrogKilled (level.py): scan the lanes in order; each
Road lane recomputes its collision cache; the first Road lane reporting a
collision stops the scan with result true.  Returns the lanes with their
updated caches and whether a collision was found. -/
def cfkLoop (f : Frog) : List Lane → List Lane × Bool
  | [] => ([], false)
  | l :: ls =>
    if l.kind = .road then
      if (Road.getCarCollided l f).2 then ((Road.getCarCollided l f).1 :: ls, true)
      else ((Road.getCarCollided l f).1 :: (cfkLoop f ls).1, (cfkLoop f ls).2)
    else (l :: (cfkLoop f ls).1, (cfkLoop f ls).2)

/-- Level._checkFrogKilled + Level.isFrogKilled (level.py): when the frog is
visible and some Road lane reports a car collision, the life-loss transition
runs; the (possibly stale) `_frogKilled` flag is then returned. -/
def isFrogKilled (st : LevelState) : Except Err (Bool × LevelState) :=
  if st.frog.visible then
    if (cfkLoop st.frog st.lanes).2 then
      (frogDies { st with lanes := (cfkLoop st.frog st.lanes).1 }).map
        fun s => (s.frogKilled, s)
    else .ok (st.frogKilled, { st with lanes := (cfkLoop st.frog st.lanes).1 })
  else .ok (st.frogKilled, st)

/-- Level.isGameOver (level.py). -/
def isGameOver (st : LevelState) : Bool := st.gameOver

/-- Level._checkWin (level.py): count the hedge lanes and the full hedge
lanes and compare. -/
def checkWin (st : LevelState) : LevelState :=
  let hedges := st.lanes.countP fun l => decide (l.kind = .hedge)
  let full := st.lanes.countP fun l => decide (l.kind = .hedge) && Hedge.isHedgeFull l
  { st with gameWon := decide (hedges = full) }

/-- Level.isGameWon (level.py): recompute the win flag, then return it. -/
def isGameWon (st : LevelState) : Bool × LevelState :=
  let st1 := checkWin st
  (st1.gameWon, st1)

/-- One entry of a lane's `objects` list in the level descriptor. -/
structure ObjSpec where
  type : String
  position : ℤ
  deriving DecidableEq, Repr

/-- One lane of the level descriptor (`type`, optional `speed`, optional
`objects` — an absent list is the empty list). -/
structure LaneSpec where
  type : String
  speed : Option ℚ
  objects : List ObjSpec
  deriving DecidableEq, Repr

/-- The level descriptor (`size`, `offscreen`, `lanes`). -/
structure LevelSpec where
  sizeW : ℕ
  sizeH : ℕ
  offscreen : ℚ
  lanes : List LaneSpec
  deriving DecidableEq, Repr

/-- External asset data consumed at construction time: the hitbox table for
obstacle images (`hitbox_dict['images'][type]['hitbox']`, absent keys fail
the load), the pixel sizes of the obstacle images (GImage takes its width
and height from the loaded texture), and the frog sprite's per-frame hitbox
list and frame size. -/
structure Assets where
  imgHitbox : String → Option Hitbox
  imgSize : String → ℚ × ℚ
  frogHitboxes : List Hitbox
  frogW : ℚ
  frogH : ℚ

/-- Lane-type dispatch in Level.__init__ (level.py): any other string leaves
`lane_obj` unbound and construction fails. -/
def kindOf : String → Option LaneKind
  | "grass" => some .grass
  | "road" => some .road
  | "water" => some .water
  | "hedge" => some .hedge
  | _ => none

/-- The part of an image source name before its first dot, as computed by
`obj.source.find('.')` and the slice `source[:dot]` in Hedge.__init__ for
`source = str(type) + '.png'`. -/
def srcBase (type : String) : String :=
  (type.data.takeWhile fun c => c ≠ '.').asString

/-- Obstacle-construction loop of Lane.__init__ (lanes.py): one GImage per
`objects` entry, at grid column `position + 0.5`, vertically centered on the
lane tile, with the hitbox looked up by obstacle type (a missing table entry
is a load failure) and the size taken from the image asset; obstacles are
flipped 180 degrees when the lane speed is negative. -/
def mkObjs (a : Assets) (flip : Bool) (bottom : ℚ) :
    List ObjSpec → Option (List GObj)
  | [] => some []
  | ob :: rest => do
    let hb ← a.imgHitbox ob.type
    let os ← mkObjs a flip bottom rest
    pure ({ x := ((ob.position : ℚ) + 1/2) * GRID_SIZE,
            y := bottom + GRID_SIZE / 2,
            width := (a.imgSize ob.type).1,
            height := (a.imgSize ob.type).2,
            angle := if flip then Angle.deg180 else Angle.deg0,
            hitbox := hb } :: os)

/-- Lane.__init__ together with the Road and Hedge initializers: resolve the
lane kind from the `type` string, build the background tile (GTile with left
0, the given bottom, the window width and GRID_SIZE height) and the obstacle
list, with the speed defaulting to 0 and the offscreen buffer from the level
dictionary; a Hedge lane collects the indices of its `exit` objects as the
open exits. -/
def mkLane (a : Assets) (winW offscreen : ℚ) (ls : LaneSpec) (bottom : ℚ) :
    Option Lane := do
  let kind ← kindOf ls.type
  let flip : Bool := match ls.speed with
    | some s => decide (s < 0)
    | none => false
  let objs ← mkObjs a flip bottom ls.objects
  pure { kind := kind,
         tile := { x := winW / 2, y := bottom + GRID_SIZE / 2,
                   width := winW, height := GRID_SIZE,
                   angle := .deg0, hitbox := Hitbox.zero },
         objs := objs,
         laneSpeed := ls.speed.getD 0,
         buffer := offscreen,
         windowWidth := winW,
         carCollided := false,
         openexits :=
           if kind = .hedge then
             (ls.objects.enum.filter fun io => srcBase io.2.type == "exit").map (·.1)
           else [],
         closedexits := [],
         safefrogs := [] }

/-- The lane-construction loop of Level.__init__: bottom coordinates start
at 0 and advance by GRID_SIZE per lane. -/
def mkLanes (a : Assets) (winW offscreen : ℚ) :
    List LaneSpec → ℚ → Option (List Lane)
  | [], _ => some []
  | s :: rest, b => do
    let l ← mkLane a winW offscreen s b
    let ls ← mkLanes a winW offscreen rest (b + GRID_SIZE)
    pure (l :: ls)

/-- Level.__init__ (level.py): build the lanes bottom-to-top, place the frog
at grid cell (width // 2, 0) facing north, visible, at frame FROG_REST, with
three lives, all flags cleared and no animation. -/
def mkLevel (a : Assets) (spec : LevelSpec) : Option LevelState := do
  let lanes ← mkLanes a ((spec.sizeW : ℚ) * GRID_SIZE) spec.offscreen spec.lanes 0
  pure { widthCells := spec.sizeW,
         heightCells := spec.sizeH,
         lanes := lanes,
         frog := { x := ((spec.sizeW / 2 : ℕ) + 1/2 : ℚ) * GRID_SIZE,
                   y := (1/2 : ℚ) * GRID_SIZE,
                   angle := .deg180,
                   frame := FROG_REST,
                   visible := true,
                   width := a.frogW,
                   height := a.frogH,
                   hitboxes := a.frogHitboxes },
         lives := FROG_LIVES,
         frogKilled := false,
         gameOver := false,
         inExit := false,
         gameWon := false,
         animator := none }

/-- The lane selected by the loop of Level._goingToHedge: the first hedge
lane whose tile contains the given point (the loop breaks there). -/
def findHedgeTile (point : ℚ × ℚ) : List Lane → Option Lane
  | [] => none
  | l :: ls =>
    if l.kind = .hedge && l.tile.containsPt point then some l
    else findHedgeTile point ls

/-- Wraparound as worded by the spec for claim C9: an obstacle position that
crosses the off-screen edge (`-buffer*GRID_SIZE` for leftward motion,
`laneWidth + buffer*GRID_SIZE` for rightward motion) is reinserted at the
opposite edge with the overshoot distance past the edge preserved exactly;
other positions are kept. -/
def wrapSpecX (speed buffer width x1 : ℚ) : ℚ :=
  if speed < 0 ∧ x1 ≤ -(buffer * GRID_SIZE) then
    (width + buffer * GRID_SIZE) + (x1 - (-(buffer * GRID_SIZE)))
  else if speed > 0 ∧ x1 ≥ width + buffer * GRID_SIZE then
    (-(buffer * GRID_SIZE)) + (x1 - (width + buffer * GRID_SIZE))
  else x1

/-!
Concrete fixtures used by counterexamples and witnesses: a trivial asset
table (all hitboxes zero, all images one grid cell), and small levels built
from it.
-/

/-- Eight zero hitboxes for the frog sprite frames. -/
def zeroHB8 : List Hitbox := List.replicate 8 Hitbox.zero

/-- Asset table with zero hitbox insets and 64-by-64 images. -/
def zeroAssets : Assets :=
  { imgHitbox := fun _ => some Hitbox.zero,
    imgSize := fun _ => (64, 64),
    frogHitboxes := zeroHB8,
    frogW := 64,
    frogH := 64 }

/-- A 3-by-3 level: grass at the bottom, then a hedge lane whose single
object `open` (a passage, not an exit) sits directly above the frog. -/
def lvC1spec : LevelSpec :=
  { sizeW := 3, sizeH := 3, offscreen := 1,
    lanes := [ { type := "grass", speed := none, objects := [] },
               { type := "hedge", speed := none,
                 objects := [ { type := "open", position := 1 } ] } ] }

/-- The state Level.__init__ builds from lvC1spec. -/
def lvC1 : LevelState :=
  { widthCells := 3, heightCells := 3,
    lanes := [
      { kind := .grass, tile := ⟨96, 32, 192, 64, .deg0, Hitbox.zero⟩,
        objs := [], laneSpeed := 0, buffer := 1, windowWidth := 192,
        carCollided := false, openexits := [], closedexits := [], safefrogs := [] },
      { kind := .hedge, tile := ⟨96, 96, 192, 64, .deg0, Hitbox.zero⟩,
        objs := [⟨96, 96, 64, 64, .deg0, Hitbox.zero⟩],
        laneSpeed := 0, buffer := 1, windowWidth := 192,
        carCollided := false, openexits := [], closedexits := [], safefrogs := [] } ],
    frog := ⟨96, 32, .deg180, 0, true, 64, 64, zeroHB8⟩,
    lives := 3, frogKilled := false, gameOver := false, inExit := false,
    gameWon := false, animator := none }

/-- A 3-by-3 level made of a grass lane and a hedge lane with no objects. -/
def lvC1wspec : LevelSpec :=
  { sizeW := 3, sizeH := 3, offscreen := 1,
    lanes := [ { type := "grass", speed := none, objects := [] },
               { type := "hedge", speed := none, objects := [] } ] }

/-- The state Level.__init__ builds from lvC1wspec. -/
def lvC1w : LevelState :=
  { lvC1 with
    lanes := [
      { kind := .grass, tile := ⟨96, 32, 192, 64, .deg0, Hitbox.zero⟩,
        objs := [], laneSpeed := 0, buffer := 1, windowWidth := 192,
        carCollided := false, openexits := [], closedexits := [], safefrogs := [] },
      { kind := .hedge, tile := ⟨96, 96, 192, 64, .deg0, Hitbox.zero⟩,
        objs := [], laneSpeed := 0, buffer := 1, windowWidth := 192,
        carCollided := false, openexits := [], closedexits := [], safefrogs := [] } ] }

/-- A level of three grass lanes with the frog one row up (reached by one
completed up-slide from the start cell): a legal state in which a down move
is in bounds and not hedge-blocked. -/
def lvC2 : LevelState :=
  { widthCells := 3, heightCells := 3,
    lanes := [
      { kind := .grass, tile := ⟨96, 32, 192, 64, .deg0, Hitbox.zero⟩,
        objs := [], laneSpeed := 0, buffer := 1, windowWidth := 192,
        carCollided := false, openexits := [], closedexits := [], safefrogs := [] },
      { kind := .grass, tile := ⟨96, 96, 192, 64, .deg0, Hitbox.zero⟩,
        objs := [], laneSpeed := 0, buffer := 1, windowWidth := 192,
        carCollided := false, openexits := [], closedexits := [], safefrogs := [] },
      { kind := .grass, tile := ⟨96, 160, 192, 64, .deg0, Hitbox.zero⟩,
        objs := [], laneSpeed := 0, buffer := 1, windowWidth := 192,
        carCollided := false, openexits := [], closedexits := [], safefrogs := [] } ],
    frog := ⟨96, 96, .deg180, 0, true, 64, 64, zeroHB8⟩,
    lives := 3, frogKilled := false, gameOver := false, inExit := false,
    gameWon := false, animator := none }

/-- A 3-by-1 level consisting of a single water lane with no logs: the frog
starts in the water and drowns. -/
def lvC3spec : LevelSpec :=
  { sizeW := 3, sizeH := 1, offscreen := 1,
    lanes := [ { type := "water", speed := none, objects := [] } ] }

/-- The state Level.__init__ builds from lvC3spec. -/
def lvC3 : LevelState :=
  { widthCells := 3, heightCells := 1,
    lanes := [
      { kind := .water, tile := ⟨96, 32, 192, 64, .deg0, Hitbox.zero⟩,
        objs := [], laneSpeed := 0, buffer := 1, windowWidth := 192,
        carCollided := false, openexits := [], closedexits := [], safefrogs := [] } ],
    frog := ⟨96, 32, .deg180, 0, true, 64, 64, zeroHB8⟩,
    lives := 3, frogKilled := false, gameOver := false, inExit := false,
    gameWon := false, animator := none }

/-- lvC3 after one no-key tick (first life lost to drowning). -/
def lvC3a : LevelState :=
  { lvC3 with frog := { lvC3.frog with visible := false },
              frogKilled := true, lives := 2 }

/-- lvC3 after two no-key ticks. -/
def lvC3b : LevelState := { lvC3a with lives := 1 }

/-- lvC3 after three no-key ticks: no lives left, game over. -/
def lvC3c : LevelState := { lvC3a with lives := 0, gameOver := true }

/-- A level whose single road lane has a car on the frog's start cell. -/
def lvC4 : LevelState :=
  { widthCells := 3, heightCells := 3,
    lanes := [
      { kind := .road, tile := ⟨96, 32, 192, 64, .deg0, Hitbox.zero⟩,
        objs := [⟨96, 32, 64, 64, .deg0, Hitbox.zero⟩],
        laneSpeed := 0, buffer := 1, windowWidth := 192,
        carCollided := false, openexits := [], closedexits := [], safefrogs := [] } ],
    frog := ⟨96, 32, .deg180, 0, true, 64, 64, zeroHB8⟩,
    lives := 3, frogKilled := false, gameOver := false, inExit := false,
    gameWon := false, animator := none }

/-- The road lane of lvC4 on its own. -/
def roadC6 : Lane :=
  { kind := .road, tile := ⟨96, 32, 192, 64, .deg0, Hitbox.zero⟩,
    objs := [⟨96, 32, 64, 64, .deg0, Hitbox.zero⟩],
    laneSpeed := 0, buffer := 1, windowWidth := 192,
    carCollided := false, openexits := [], closedexits := [], safefrogs := [] }

/-- A visible frog on the car of roadC6. -/
def frogC6v : Frog := ⟨96, 32, .deg180, 0, true, 64, 64, zeroHB8⟩

/-- An invisible frog far away from every car of roadC6. -/
def frogC6i : Frog := ⟨500, 32, .deg180, 0, false, 64, 64, zeroHB8⟩

/-- A water lane occupying the second row, with no logs. -/
def waterC7 : Lane :=
  { kind := .water, tile := ⟨96, 96, 192, 64, .deg0, Hitbox.zero⟩,
    objs := [], laneSpeed := 0, buffer := 1, windowWidth := 192,
    carCollided := false, openexits := [], closedexits := [], safefrogs := [] }

/-- A frog mid-slide below waterC7: its center (96, 40) is below the tile,
but its hitbox (vertical extent 8..72) overlaps the tile (64..128). -/
def frogC7 : Frog := ⟨96, 40, .deg180, 0, true, 64, 64, zeroHB8⟩

/-- A frog standing at the center of the waterC7 lane's row. -/
def frogC7b : Frog := ⟨96, 96, .deg180, 0, true, 64, 64, zeroHB8⟩

/-- A frog at rest at the center of cell (1, 0). -/
def frogC8 : Frog := ⟨96, 32, .deg180, 0, true, 64, 64, zeroHB8⟩

/-- A leftward lane with one obstacle about to cross the left off-screen
edge at -64 (buffer 1). -/
def laneC9 : Lane :=
  { kind := .road, tile := ⟨96, 32, 192, 64, .deg0, Hitbox.zero⟩,
    objs := [⟨-60, 32, 64, 64, .deg180, Hitbox.zero⟩],
    laneSpeed := -10, buffer := 1, windowWidth := 192,
    carCollided := false, openexits := [], closedexits := [], safefrogs := [] }

/-- A hedge lane with two open exits (indices 0 and 1). -/
def hedgeC5 : Lane :=
  { kind := .hedge, tile := ⟨96, 96, 192, 64, .deg0, Hitbox.zero⟩,
    objs := [⟨32, 96, 64, 64, .deg0, Hitbox.zero⟩, ⟨160, 96, 64, 64, .deg0, Hitbox.zero⟩],
    laneSpeed := 0, buffer := 1, windowWidth := 192,
    carCollided := false, openexits := [0, 1], closedexits := [], safefrogs := [] }

/-- A frog standing on the first exit of hedgeC5. -/
def frogC5 : Frog := ⟨32, 96, .deg180, 0, true, 64, 64, zeroHB8⟩

/-- A 1-by-1 level with a single grass lane (no hedge lanes at all). -/
def lvC10spec : LevelSpec :=
  { sizeW := 1, sizeH := 1, offscreen := 0,
    lanes := [ { type := "grass", speed := none, objects := [] } ] }

/-- The state Level.__init__ builds from lvC10spec. -/
def lvC10 : LevelState :=
  { widthCells := 1, heightCells := 1,
    lanes := [
      { kind := .grass, tile := ⟨32, 32, 64, 64, .deg0, Hitbox.zero⟩,
        objs := [], laneSpeed := 0, buffer := 0, windowWidth := 64,
        carCollided := false, openexits := [], closedexits := [], safefrogs := [] } ],
    frog := ⟨32, 32, .deg180, 0, true, 64, 64, zeroHB8⟩,
    lives := 3, frogKilled := false, gameOver := false, inExit := false,
    gameWon := false, animator := none }

/-- An operation that can touch a Hedge lane's state during play: a
getReachedExit query (the only code that mutates the exit lists) or a
Lane.update tick (which only moves obstacle positions). -/
inductive HedgeOp where
  | reached (f : Frog) (k : Key)
  | tick (dt : ℚ)

/-- Apply one hedge operation to the lane. -/
def applyOp (l : Lane) : HedgeOp → Lane
  | .reached f k => (Hedge.getReachedExit l f k).1
  | .tick dt => l.update dt

/-- Apply a sequence of hedge operations in order. -/
def applyOps (l : Lane) : List HedgeOp → Lane
  | [] => l
  | op :: ops => applyOps (applyOp l op) ops

/-!
Helper lemmas (shared between the claim theorems).
-/

theorem pyRound_zero : pyRound 0 = 0 := by
  norm_num [pyRound]

theorem slideFrame_final (y0 : ℚ) (old : ℤ) :
    slideFrame y0 (y0 + GRID_SIZE) (y0 + GRID_SIZE) old = FROG_REST := by
  have h64 : (y0 + GRID_SIZE) - y0 = 64 := by norm_num [GRID_SIZE]
  have hfrac : 2 * ((y0 + GRID_SIZE) - y0) / ((y0 + GRID_SIZE) - y0) = 2 := by
    rw [h64]; norm_num
  simp only [slideFrame, h64, hfrac]
  norm_num [pyRound, FROG_REST, FROG_STRETCHED]

theorem slideRunUp_aux (y0 x0 : ℚ) :
    ∀ (dts : List ℚ) (f : Frog) (acc : ℚ),
      (∀ d ∈ dts, 0 ≤ d) → 0 ≤ acc → acc < FROG_SPEED →
      f.y = y0 + GRID_SIZE / FROG_SPEED * acc → f.x = x0 →
      FROG_SPEED ≤ acc + dts.sum →
      (slideRun ⟨true, x0, x0, y0, y0 + GRID_SIZE⟩ f dts).2 = true ∧
      (slideRun ⟨true, x0, x0, y0, y0 + GRID_SIZE⟩ f dts).1.y = y0 + GRID_SIZE ∧
      (slideRun ⟨true, x0, x0, y0, y0 + GRID_SIZE⟩ f dts).1.frame = FROG_REST ∧
      (slideRun ⟨true, x0, x0, y0, y0 + GRID_SIZE⟩ f dts).1.x = x0 := by
  intro dts
  induction dts with
  | nil =>
    intro f acc hnn hacc0 hacclt hy hx hsum
    exfalso
    simp only [List.sum_nil, add_zero] at hsum
    exact absurd hsum (not_le.mpr hacclt)
  | cons d ds ih =>
    intro f acc hnn hacc0 hacclt hy hx hsum
    have hd : 0 ≤ d := hnn d (by simp)
    have hstep : (y0 + GRID_SIZE) - y0 = 64 := by norm_num [GRID_SIZE]
    have hy1 : f.y + ((y0 + GRID_SIZE) - y0) / FROG_SPEED * d - y0 = 256 * (acc + d) := by
      rw [hy, hstep]
      norm_num [GRID_SIZE, FROG_SPEED]
      ring
    by_cases hfin : FROG_SPEED ≤ acc + d
    · have habs : |f.y + ((y0 + GRID_SIZE) - y0) / FROG_SPEED * d - y0| ≥ GRID_SIZE := by
        rw [hy1, abs_of_nonneg (by positivity)]
        norm_num [GRID_SIZE]
        norm_num [FROG_SPEED] at hfin
        linarith
      simp only [slideRun, animStep, if_pos habs]
      simp [slideFrame_final, hx]
    · push_neg at hfin
      have habs : ¬ |f.y + ((y0 + GRID_SIZE) - y0) / FROG_SPEED * d - y0| ≥ GRID_SIZE := by
        rw [hy1, abs_of_nonneg (by positivity)]
        norm_num [GRID_SIZE]
        norm_num [FROG_SPEED] at hfin
        linarith
      simp only [slideRun, animStep, if_neg habs, if_pos rfl]
      have := ih { f with
          y := f.y + ((y0 + GRID_SIZE) - y0) / FROG_SPEED * d,
          frame := slideFrame y0 (y0 + GRID_SIZE)
            (f.y + ((y0 + GRID_SIZE) - y0) / FROG_SPEED * d) f.frame }
        (acc + d) (fun e he => hnn e (by simp [he])) (by linarith) hfin
        (by
          show f.y + ((y0 + GRID_SIZE) - y0) / FROG_SPEED * d
              = y0 + GRID_SIZE / FROG_SPEED * (acc + d)
          rw [hy, hstep]
          norm_num [GRID_SIZE, FROG_SPEED]
          ring)
        (by simpa using hx)
        (by
          simp only [List.sum_cons] at hsum
          linarith)
      simpa using this

/-!
Claim theorems.
-/

/-- C8: for a slide in direction 'up' starting at the center of cell (c, r),
once the successive dt values fed to the animation (all nonnegative) sum to
at least FROG_SPEED seconds, the animation reports completion, the frog's
position is clamped exactly to the center of cell (c, r+1), and the frame
index is back at rest (FROG_REST = 0). -/
theorem claim_C8 (c r : ℕ) (f : Frog) (dts : List ℚ)
    (hx : f.x = ((c : ℚ) + 1/2) * GRID_SIZE)
    (hy : f.y = ((r : ℚ) + 1/2) * GRID_SIZE)
    (hnn : ∀ d ∈ dts, 0 ≤ d)
    (hsum : FROG_SPEED ≤ dts.sum) :
    (slideRun (animateSlide f .up) f dts).2 = true ∧
    (slideRun (animateSlide f .up) f dts).1.x = ((c : ℚ) + 1/2) * GRID_SIZE ∧
    (slideRun (animateSlide f .up) f dts).1.y = (((r : ℚ) + 1) + 1/2) * GRID_SIZE ∧
    (slideRun (animateSlide f .up) f dts).1.frame = FROG_REST := by
  have hne : f.determineFinalY .up ≠ f.y := by
    simp only [Frog.determineFinalY]
    norm_num [GRID_SIZE]
  have ha : animateSlide f .up = ⟨true, f.x, f.x, f.y, f.y + GRID_SIZE⟩ := by
    simp [animateSlide, Frog.determineFinalY, Frog.determineFinalX, if_neg hne]
    norm_num [GRID_SIZE]
  rw [ha]
  have := slideRunUp_aux f.y f.x dts f 0 hnn le_rfl
    (by norm_num [FROG_SPEED]) (by simp) rfl (by simpa using hsum)
  refine ⟨this.1, by rw [this.2.2.2, hx], ?_, this.2.2.1⟩
  rw [this.2.1, hy]
  norm_num [GRID_SIZE]
  ring

/-- Witness for C8 at cell (1, 0) with deltas [1/8, 1/8]. -/
theorem claim_C8_w :
    (slideRun (animateSlide frogC8 .up) frogC8 [1/8, 1/8]).2 = true ∧
    (slideRun (animateSlide frogC8 .up) frogC8 [1/8, 1/8]).1.x = ((1 : ℚ) + 1/2) * GRID_SIZE ∧
    (slideRun (animateSlide frogC8 .up) frogC8 [1/8, 1/8]).1.y = (((0 : ℚ) + 1) + 1/2) * GRID_SIZE ∧
    (slideRun (animateSlide frogC8 .up) frogC8 [1/8, 1/8]).1.frame = FROG_REST := by
  have h := claim_C8 1 0 frogC8 [1/8, 1/8]
    (by norm_num [frogC8, GRID_SIZE])
    (by norm_num [frogC8, GRID_SIZE])
    (by intro d hd; simp at hd; norm_num [hd])
    (by norm_num [FROG_SPEED])
  simpa using h

theorem wrapX_eq_spec (s b w x : ℚ) : wrapX s b w x = wrapSpecX s b w x := by
  have he : -b * GRID_SIZE = -(b * GRID_SIZE) := by ring
  unfold wrapX wrapSpecX
  by_cases h1 : s < 0
  · have h1n : ¬ s > 0 := by linarith
    by_cases h2 : x ≤ -(b * GRID_SIZE)
    · rw [if_pos h1, he, if_pos h2, if_pos ⟨h1, h2⟩]
    · rw [if_pos h1, he, if_neg h2, if_neg (fun hc => h2 hc.2),
        if_neg (fun hc => h1n hc.1)]
  · by_cases h3 : s > 0
    · by_cases h4 : x ≥ w + b * GRID_SIZE
      · rw [if_neg h1, if_pos h3, if_pos h4, if_neg (fun hc => h1 hc.1), if_pos ⟨h3, h4⟩, he]
      · rw [if_neg h1, if_pos h3, if_neg h4, if_neg (fun hc => h1 hc.1),
          if_neg (fun hc => h4 hc.2)]
    · rw [if_neg h1, if_neg h3, if_neg (fun hc => h1 hc.1), if_neg (fun hc => h3 hc.1)]

/-- C9: Lane.update shifts every obstacle's x by exactly `speed * dt` and
then applies wraparound: an obstacle whose shifted position crosses the
off-screen edge (`-buffer*GRID_SIZE` for leftward motion,
`laneWidth + buffer*GRID_SIZE` for rightward motion) is reinserted at the
opposite edge with the overshoot distance past the edge preserved exactly,
and all other obstacles keep their shifted position; the obstacle count is
unchanged. -/
theorem claim_C9 (l : Lane) (dt : ℚ) (i : ℕ) (d : GObj) (h : i < l.objs.length) :
    (l.update dt).objs.length = l.objs.length ∧
    (l.update dt).objs.getD i d =
      { l.objs.getD i d with
        x := wrapSpecX l.laneSpeed l.buffer l.windowWidth
              ((l.objs.getD i d).x + l.laneSpeed * dt) } := by
  refine ⟨by simp [Lane.update], ?_⟩
  have h2 : i < (l.update dt).objs.length := by simpa [Lane.update] using h
  rw [List.getD_eq_getElem _ _ h2, List.getD_eq_getElem _ _ h]
  simp [Lane.update, wrapX_eq_spec]

/-- Witness for C9: in laneC9 (speed -10, buffer 1, width 192) the obstacle
at x = -60 shifted by -10 * 1/2 = -5 reaches -65, one unit past the left
off-screen edge -64, and is reinserted at 256 - 1 = 255. -/
theorem claim_C9_w :
    ((laneC9.update (1/2)).objs.getD 0 ⟨0, 0, 0, 0, .deg0, Hitbox.zero⟩).x = 255 := by
  have h := (claim_C9 laneC9 (1/2) 0 ⟨0, 0, 0, 0, .deg0, Hitbox.zero⟩
    (by norm_num [laneC9])).2
  rw [h]
  norm_num [laneC9, wrapSpecX, GRID_SIZE]

theorem kindOf_hedge {s : String} (h : kindOf s = some .hedge) : s = "hedge" := by
  unfold kindOf at h
  split at h <;> simp_all

theorem mkLanes_kinds (a : Assets) (w off : ℚ) :
    ∀ (specs : List LaneSpec) (b : ℚ) (lanes : List Lane),
      mkLanes a w off specs b = some lanes →
      ∀ l ∈ lanes, ∃ s ∈ specs, kindOf s.type = some l.kind := by
  intro specs
  induction specs with
  | nil =>
    intro b lanes hmk l hl
    simp [mkLanes] at hmk
    subst hmk
    simp at hl
  | cons s rest ih =>
    intro b lanes hmk l hl
    simp only [mkLanes, Option.bind_eq_bind, Option.bind_eq_some] at hmk
    obtain ⟨l0, hl0, lanes0, hlanes0, heq⟩ := hmk
    have hkind : kindOf s.type = some l0.kind := by
      simp only [mkLane, Option.bind_eq_bind, Option.bind_eq_some] at hl0
      obtain ⟨k, hk, objs, hobjs, heq0⟩ := hl0
      simp only [Option.pure_def, Option.some_inj] at heq0
      rw [← heq0]
      exact hk
    simp only [Option.pure_def, Option.some_inj] at heq
    subst heq
    rcases List.mem_cons.mp hl with h | h
    · exact ⟨s, by simp, by rw [h]; exact hkind⟩
    · obtain ⟨s1, hs1, hs2⟩ := ih _ _ hlanes0 l h
      exact ⟨s1, by simp [hs1], hs2⟩

/-- C10: a Level constructed from a descriptor whose lanes list contains no
hedge lane answers isGameWon() = True from the very first query: the
all-hedges-full count comparison is vacuously 0 = 0. -/
theorem claim_C10 (a : Assets) (spec : LevelSpec) (st : LevelState)
    (hmk : mkLevel a spec = some st)
    (hnh : ∀ ls ∈ spec.lanes, ls.type ≠ "hedge") :
    (isGameWon st).1 = true := by
  simp only [mkLevel, Option.bind_eq_bind, Option.bind_eq_some] at hmk
  obtain ⟨lanes, hlanes, heq⟩ := hmk
  simp only [Option.pure_def, Option.some_inj] at heq
  have hkinds := mkLanes_kinds a ((spec.sizeW : ℚ) * GRID_SIZE) spec.offscreen
    spec.lanes 0 lanes hlanes
  have hnothedge : ∀ l ∈ lanes, l.kind ≠ .hedge := by
    intro l hl hk
    obtain ⟨s, hs, hkind⟩ := hkinds l hl
    rw [hk] at hkind
    exact hnh s hs (kindOf_hedge hkind)
  have hstlanes : st.lanes = lanes := by rw [← heq]
  simp only [isGameWon, checkWin, hstlanes]
  have h0 : lanes.countP (fun l => decide (l.kind = .hedge)) = 0 :=
    List.countP_eq_zero.mpr (by intro l hl; simpa using hnothedge l hl)
  have h1 : lanes.countP (fun l => decide (l.kind = .hedge) && Hedge.isHedgeFull l) = 0 :=
    List.countP_eq_zero.mpr (by
      intro l hl
      simp only [Bool.and_eq_true, decide_eq_true_eq, not_and]
      intro hk
      exact absurd hk (hnothedge l hl))
  simp [h0, h1]

/-- Witness for C10 on a one-lane all-grass level. -/
theorem claim_C10_w : (isGameWon lvC10).1 = true :=
  claim_C10 zeroAssets lvC10spec lvC10
    (by norm_num [mkLevel, mkLanes, mkLane, mkObjs, kindOf, srcBase, zeroAssets,
          lvC10spec, lvC10, GRID_SIZE, FROG_LIVES, FROG_REST, Hitbox.zero, zeroHB8,
          Option.bind])
    (by intro ls h; simp [lvC10spec] at h; subst h; decide)

theorem destPoint_angle (k : Key) (f : Frog) (a : Angle) :
    destPoint k { f with angle := a } = destPoint k f := by
  cases k <;> rfl

theorem goingToObstacle_angle (l : Lane) (k : Key) (f : Frog) (a : Angle) :
    Hedge.goingToObstacle l k { f with angle := a } = Hedge.goingToObstacle l k f := by
  unfold Hedge.goingToObstacle
  rw [destPoint_angle]

theorem willReachExit_angle (l : Lane) (k : Key) (f : Frog) (a : Angle) :
    Hedge.willReachExit l { f with angle := a } k = Hedge.willReachExit l f k := by
  unfold Hedge.willReachExit
  rw [destPoint_angle]

theorem gthLoop_of_find (p : ℚ × ℚ) (k : Key) (f : Frog) (l : Lane) :
    ∀ lanes : List Lane, findHedgeTile p lanes = some l →
      gthLoop p k f lanes = !(Hedge.goingToObstacle l k f || Hedge.willReachExit l f k) := by
  intro lanes
  induction lanes with
  | nil => intro h; simp [findHedgeTile] at h
  | cons l0 ls ih =>
    intro h
    by_cases hc : (l0.kind = LaneKind.hedge && l0.tile.containsPt p) = true
    · simp only [findHedgeTile, if_pos hc, Option.some_inj] at h
      subst h
      simp only [gthLoop, if_pos hc]
    · simp only [findHedgeTile, if_neg hc] at h
      simp only [gthLoop, if_neg hc]
      exact ih h

/-- C1 (amended): a directional move attempt whose destination cell lies
inside a Hedge lane's tile is entirely blocked exactly when the destination
is at none of the lane's objects and the move would not reach an open exit;
in that blocked case the frog only turns to face the direction — no slide
animation is started, its position is unchanged and no death is triggered.
(A destination inside a lane object that is not an open exit, such as an
`open` passage, is NOT blocked — see the counterexample.) -/
theorem claim_C1 (st : LevelState) (k : Key) (l : Lane)
    (hfind : findHedgeTile (destPoint k st.frog) st.lanes = some l)
    (hobs : Hedge.goingToObstacle l k st.frog = false)
    (hexit : Hedge.willReachExit l st.frog k = false) :
    moveKey st k = .ok { st with frog := { st.frog with angle := k.frogAngle } } := by
  have hblocked : ∀ a : Angle,
      gthLoop (destPoint k st.frog) k { st.frog with angle := a } st.lanes = true := by
    intro a
    rw [gthLoop_of_find _ _ _ _ _ hfind, goingToObstacle_angle, willReachExit_angle,
      hobs, hexit]
    rfl
  cases k with
  | left =>
    show leftKey st = _
    simp [leftKey, goingToHedge, destPoint_angle, hblocked]
  | right =>
    show rightKey st = _
    simp [rightKey, goingToHedge, destPoint_angle, hblocked]
  | up =>
    show upKey st = _
    simp [upKey, goingToHedge, destPoint_angle, hblocked]
  | down =>
    show downKey st = _
    simp [downKey, goingToHedge, destPoint_angle, hblocked]

/-- Counterexample to C1 as stated: in lvC1 the cell above the frog lies
inside the hedge lane's tile and inside the `open` object — an object that
is not an open exit — yet the up move is not blocked: Level._goingToHedge
returns False there (Hedge.goingToObstacle makes the move permitted rather
than blocked), and update starts a slide animation. -/
theorem claim_C1_cex :
    mkLevel zeroAssets lvC1spec = some lvC1 ∧
    (∃ l, findHedgeTile (destPoint .up lvC1.frog) lvC1.lanes = some l ∧
       Hedge.goingToObstacle l .up lvC1.frog = true ∧
       Hedge.getFrogAtObstacle l { lvC1.frog with y := lvC1.frog.y + GRID_SIZE } = true) ∧
    goingToHedge lvC1 .up = false ∧
    upKey lvC1 = .ok { lvC1 with animator := some ⟨true, 96, 96, 32, 96⟩ } := by
  refine ⟨?_, ⟨?_, ?_, ?_, ?_⟩, ?_, ?_⟩
  · norm_num [mkLevel, mkLanes, mkLane, mkObjs, kindOf, srcBase, zeroAssets,
      lvC1spec, lvC1, GRID_SIZE, FROG_LIVES, FROG_REST, Hitbox.zero, zeroHB8,
      Option.bind]
    decide
  · exact { kind := .hedge, tile := ⟨96, 96, 192, 64, .deg0, Hitbox.zero⟩,
            objs := [⟨96, 96, 64, 64, .deg0, Hitbox.zero⟩],
            laneSpeed := 0, buffer := 1, windowWidth := 192,
            carCollided := false, openexits := [], closedexits := [], safefrogs := [] }
  · norm_num [findHedgeTile, destPoint, lvC1, GObj.containsPt, GObj.bbox,
      Hitbox.zero, GRID_SIZE]
  · norm_num [Hedge.goingToObstacle, destPoint, lvC1, GObj.containsPt, GObj.bbox,
      Hitbox.zero, GRID_SIZE, List.enum, List.enumFrom]
  · norm_num [Hedge.getFrogAtObstacle, lvC1, GObj.containsPt, GObj.bbox,
      Hitbox.zero, GRID_SIZE]
  · norm_num [goingToHedge, gthLoop, destPoint, lvC1, Hedge.goingToObstacle,
      Hedge.willReachExit, GObj.containsPt, GObj.bbox, Hitbox.zero, GRID_SIZE,
      List.enum, List.enumFrom]
  · norm_num [upKey, goingToHedge, gthLoop, destPoint, lvC1, Hedge.goingToObstacle,
      Hedge.willReachExit, GObj.containsPt, GObj.bbox, Hitbox.zero, GRID_SIZE,
      List.enum, List.enumFrom, LevelState.heightPx, checkDeath, Water.frogDrowned,
      Water.frogOnLog, LevelState.widthPx, animateSlide, Frog.determineFinalX,
      Frog.determineFinalY, Key.frogAngle, GObj.collides, Frog.toGObj,
      Frog.curHitbox, zeroHB8, List.replicate]
    intro h
    rcases h with h | h <;> cases h

/-- Witness for the amended C1 on lvC1w: the cell above the frog is plain
hedge tile (no objects), so the up move only turns the frog. -/
theorem claim_C1_w :
    moveKey lvC1w .up =
      .ok { lvC1w with frog := { lvC1w.frog with angle := Key.frogAngle .up } } := by
  have h := claim_C1 lvC1w .up
    { kind := .hedge, tile := ⟨96, 96, 192, 64, .deg0, Hitbox.zero⟩,
      objs := [], laneSpeed := 0, buffer := 1, windowWidth := 192,
      carCollided := false, openexits := [], closedexits := [], safefrogs := [] }
    (by norm_num [findHedgeTile, destPoint, lvC1w, lvC1, GObj.containsPt, GObj.bbox,
          Hitbox.zero, GRID_SIZE])
    (by norm_num [Hedge.goingToObstacle, destPoint, lvC1w, lvC1, List.enum,
          List.enumFrom])
    (by norm_num [Hedge.willReachExit, destPoint, lvC1w, lvC1, List.enum,
          List.enumFrom])
  exact h

/-- C2 (code bug): in lvC2 the down move is not blocked by any hedge and its
destination is within level bounds (frog.y - GRID_SIZE = 32 > 0), yet the
tick update(dt, 'down') does not complete: _downKey evaluates
`self.isInExit(key)` where the name `key` is undefined in its scope, so the
tick raises NameError instead of beginning a slide. -/
theorem claim_C2 :
    goingToHedge lvC2 .down = false ∧
    lvC2.frog.y - GRID_SIZE > 0 ∧
    update lvC2 (1/100) (some .down) = .error .nameError := by
  refine ⟨?_, ?_, ?_⟩
  · simp [goingToHedge, gthLoop, destPoint, lvC2, GRID_SIZE]
  · norm_num [lvC2, GRID_SIZE]
  · simp [update, moveKey, downKey, goingToHedge, gthLoop, destPoint, lvC2,
      Key.frogAngle, GRID_SIZE, bind, Except.bind]
    norm_num

/-- C3 (code bug): after the frog drowns in lvC3 (a water lane with no
logs), each further no-key tick runs the death transition again — the single
drowning costs one life on every tick (3 → 2 → 1 → 0), and the fourth tick
raises IndexError in _frogDies (`del self._lives[-1]` on an empty list)
instead of being an ordinary state transition. -/
theorem claim_C3 :
    mkLevel zeroAssets lvC3spec = some lvC3 ∧
    update lvC3 (1/100) none = .ok lvC3a ∧ lvC3a.lives = 2 ∧
    update lvC3a (1/100) none = .ok lvC3b ∧ lvC3b.lives = 1 ∧
    update lvC3b (1/100) none = .ok lvC3c ∧ lvC3c.lives = 0 ∧
    lvC3c.gameOver = true ∧
    update lvC3c (1/100) none = .error .indexError := by
  refine ⟨?_, ?_, by norm_num [lvC3a, lvC3], ?_, by norm_num [lvC3b, lvC3a, lvC3],
    ?_, by norm_num [lvC3c, lvC3a, lvC3], by norm_num [lvC3c, lvC3a, lvC3], ?_⟩
  · norm_num [mkLevel, mkLanes, mkLane, mkObjs, kindOf, srcBase, zeroAssets,
      lvC3spec, lvC3, GRID_SIZE, FROG_LIVES, FROG_REST, Hitbox.zero, zeroHB8,
      Option.bind]
  · norm_num [update, checkDeath, Water.frogDrowned, Water.frogOnLog, GObj.collides,
      GObj.containsPt, GObj.bbox, Frog.toGObj, Frog.curHitbox, zeroHB8,
      List.replicate, Hitbox.zero, frogDies, Lane.update, wrapX, moveFrogOnLog,
      LevelState.widthPx, GRID_SIZE, lvC3, lvC3a, bind, Except.bind, pure, Except.pure]
  · norm_num [update, checkDeath, Water.frogDrowned, Water.frogOnLog, GObj.collides,
      GObj.containsPt, GObj.bbox, Frog.toGObj, Frog.curHitbox, zeroHB8,
      List.replicate, Hitbox.zero, frogDies, Lane.update, wrapX, moveFrogOnLog,
      LevelState.widthPx, GRID_SIZE, lvC3, lvC3a, lvC3b, bind, Except.bind, pure, Except.pure]
  · simp [update, checkDeath, Water.frogDrowned, Water.frogOnLog, GObj.collides,
      GObj.containsPt, GObj.bbox, Frog.toGObj, Frog.curHitbox, zeroHB8,
      List.replicate, Hitbox.zero, frogDies, Lane.update, wrapX, moveFrogOnLog,
      LevelState.widthPx, GRID_SIZE, lvC3, lvC3a, lvC3b, lvC3c, bind, Except.bind, pure, Except.pure]
    norm_num
  · simp [update, checkDeath, Water.frogDrowned, Water.frogOnLog, GObj.collides,
      GObj.containsPt, GObj.bbox, Frog.toGObj, Frog.curHitbox, zeroHB8,
      List.replicate, Hitbox.zero, frogDies, Lane.update, wrapX, moveFrogOnLog,
      LevelState.widthPx, GRID_SIZE, lvC3, lvC3a, lvC3b, lvC3c, bind, Except.bind, pure, Except.pure]
    norm_num

theorem cfkLoop_hit (f : Frog) (hvis : f.visible = true) :
    ∀ lanes : List Lane,
      (∃ l ∈ lanes, l.kind = .road ∧
        l.objs.any (fun car => car.collides f.toGObj) = true) →
      (cfkLoop f lanes).2 = true := by
  intro lanes
  induction lanes with
  | nil => rintro ⟨l, hl, _⟩; simp at hl
  | cons l0 ls ih =>
    rintro ⟨l, hl, hroad, hany⟩
    rcases List.mem_cons.mp hl with rfl | hmem
    · have hc : (Road.getCarCollided l f).2 = true := by
        simp only [Road.getCarCollided, if_pos hvis]
        exact hany
      simp only [cfkLoop, if_pos hroad, hc]
      rfl
    · by_cases hk : l0.kind = .road
      · by_cases hc : (Road.getCarCollided l0 f).2 = true
        · simp only [cfkLoop, if_pos hk, hc]; rfl
        · simp only [cfkLoop, if_pos hk, Bool.not_eq_true] at hc ⊢
          simp only [hc]
          exact ih ⟨l, hmem, hroad, hany⟩
      · simp only [cfkLoop, if_neg hk]
        exact ih ⟨l, hmem, hroad, hany⟩

/-- C4: when the frog is visible and its hitbox overlaps a car of some Road
lane, the isFrogKilled() query returns True and, as a side effect of the
query, the life-loss transition runs: the lives count decreases by exactly
one, the frog is hidden, the killed flag is set, and isGameOver() becomes
true iff the lives count reached 0. -/
theorem claim_C4 (st : LevelState) (n : ℕ)
    (hvis : st.frog.visible = true)
    (hlives : st.lives = n + 1)
    (hgo : st.gameOver = false)
    (hhit : ∃ l ∈ st.lanes, l.kind = .road ∧
      l.objs.any (fun car => car.collides st.frog.toGObj) = true) :
    ∃ st1, isFrogKilled st = .ok (true, st1) ∧
      st1.lives = n ∧
      st1.frog.visible = false ∧
      st1.frogKilled = true ∧
      (isGameOver st1 = true ↔ st1.lives = 0) := by
  have hhit2 : (cfkLoop st.frog st.lanes).2 = true := cfkLoop_hit st.frog hvis st.lanes hhit
  have hlz : ¬ ({ st with lanes := (cfkLoop st.frog st.lanes).1 } : LevelState).lives = 0 := by
    simp [hlives]
  refine ⟨({ st with lanes := (cfkLoop st.frog st.lanes).1, frog := { st.frog with visible := false }, frogKilled := true, lives := st.lives - 1, gameOver := if st.lives - 1 = 0 then true else st.gameOver } : LevelState), ?_, ?_, rfl, rfl, ?_⟩
  · simp only [isFrogKilled, if_pos hvis, hhit2, if_pos rfl, frogDies, if_neg hlz,
      Except.map]
    simp
  · simp [hlives]
  · simp only [isGameOver, hlives, hgo]
    constructor
    · intro h
      by_cases hn : n + 1 - 1 = 0
      · simpa using hn
      · rw [if_neg hn] at h
        exact absurd h (by simp)
    · intro h
      rw [if_pos (by simpa using h)]

/-- Witness for C4 on lvC4 (car and visible frog both at cell (1, 0)). -/
theorem claim_C4_w :
    ∃ st1, isFrogKilled lvC4 = .ok (true, st1) ∧
      st1.lives = 2 ∧
      st1.frog.visible = false ∧
      st1.frogKilled = true ∧
      (isGameOver st1 = true ↔ st1.lives = 0) := by
  have h := claim_C4 lvC4 2 (by norm_num [lvC4]) (by norm_num [lvC4]) (by norm_num [lvC4]) ?_
  · exact h
  · refine ⟨({ kind := .road, tile := ⟨96, 32, 192, 64, .deg0, Hitbox.zero⟩, objs := [⟨96, 32, 64, 64, .deg0, Hitbox.zero⟩], laneSpeed := 0, buffer := 1, windowWidth := 192, carCollided := false, openexits := [], closedexits := [], safefrogs := [] } : Lane), by simp [lvC4], rfl, ?_⟩
    simp [lvC4, GObj.collides, GObj.bbox, Frog.toGObj, Frog.curHitbox, zeroHB8,
      List.replicate, Hitbox.zero]
    norm_num

/-- Counterexample to C6 as stated: after a visible-frog call stores True in
Road._carCollided, a later call with the frog invisible (and far from every
car) still returns True — the cached value from the earlier call, not the
on-demand value (which would be False since the frog is not visible). -/
theorem claim_C6_cex :
    frogC6i.visible = false ∧
    (Road.getCarCollided (Road.getCarCollided roadC6 frogC6v).1 frogC6i).2 = true := by
  constructor
  · rfl
  · simp [Road.getCarCollided, roadC6, frogC6v, frogC6i, GObj.collides, GObj.bbox,
      Frog.toGObj, Frog.curHitbox, zeroHB8, List.replicate, Hitbox.zero]
    norm_num

/-- C6 (amended): when the frog is visible, Road's car-collision query is
evaluated on demand at the call — it returns true iff some car obstacle's
hitbox overlaps the frog's hitbox at that moment, and stores the result in
the `_carCollided` cache; when the frog is invisible, the query does not
re-evaluate and instead returns the cached value of the most recent
visible-frog call (initially False), leaving the lane unchanged. -/
theorem claim_C6 (l : Lane) (f : Frog) :
    (f.visible = true →
      ((Road.getCarCollided l f).2 = true ↔
        ∃ car ∈ l.objs, car.collides f.toGObj = true) ∧
      (Road.getCarCollided l f).1 =
        { l with carCollided := (Road.getCarCollided l f).2 }) ∧
    (f.visible = false → Road.getCarCollided l f = (l, l.carCollided)) := by
  constructor
  · intro hv
    constructor
    · simp [Road.getCarCollided, hv, List.any_eq_true]
    · simp [Road.getCarCollided, hv]
  · intro hv
    simp [Road.getCarCollided, hv]

/-- Witness for C6: visible frog on the car of roadC6. -/
theorem claim_C6_w : (Road.getCarCollided roadC6 frogC6v).2 = true := by
  refine ((claim_C6 roadC6 frogC6v).1 rfl).1.mpr
    ⟨⟨96, 32, 64, 64, .deg0, Hitbox.zero⟩, by simp [roadC6], ?_⟩
  simp [GObj.collides, GObj.bbox, Frog.toGObj, Frog.curHitbox, frogC6v, zeroHB8,
    List.replicate, Hitbox.zero]
  norm_num

/-- Counterexample to C7 as stated: in waterC7 (no logs) a frog whose center
(96, 40) lies below the lane's tile bounds — only its hitbox overlaps the
tile — is nevertheless reported drowned, because Water.frogDrowned tests
`self._tile.collides(frog)` (hitbox overlap), not containment of the frog's
center in the tile. -/
theorem claim_C7_cex :
    Water.frogDrowned waterC7 frogC7 = true ∧
    waterC7.tile.containsPt (frogC7.x, frogC7.y) = false ∧
    Water.frogOnLog waterC7 frogC7 = false := by
  refine ⟨?_, ?_, ?_⟩
  · simp [Water.frogDrowned, Water.frogOnLog, waterC7, frogC7, GObj.collides,
      GObj.bbox, Frog.toGObj, Frog.curHitbox, zeroHB8, List.replicate, Hitbox.zero]
    norm_num
  · simp [GObj.containsPt, GObj.bbox, waterC7, frogC7, Hitbox.zero]
    norm_num
  · simp [Water.frogOnLog, waterC7]

/-- C7 (amended): frogOnLog(frog) returns true iff the frog's center point
lies within some log's hitbox; frogDrowned(frog) returns true iff the frog's
hitbox rectangle overlaps the lane's tile AND the frog is not on a log (the
tile test is a hitbox overlap, not center containment); consequently, for
every frog whose hitbox overlaps the lane tile, frogDrowned is true iff
frogOnLog is false. -/
theorem claim_C7 (l : Lane) (f : Frog) :
    (Water.frogOnLog l f = true ↔ ∃ log ∈ l.objs, log.containsPt (f.x, f.y) = true) ∧
    (Water.frogDrowned l f = true ↔
      (l.tile.collides f.toGObj = true ∧ Water.frogOnLog l f = false)) ∧
    (l.tile.collides f.toGObj = true →
      (Water.frogDrowned l f = true ↔ Water.frogOnLog l f = false)) := by
  refine ⟨?_, ?_, ?_⟩
  · simp [Water.frogOnLog, List.any_eq_true]
  · simp [Water.frogDrowned]
  · intro h
    simp [Water.frogDrowned, h]

/-- Witness for C7: a frog at the center of waterC7's row with no log
underneath is drowned. -/
theorem claim_C7_w : Water.frogDrowned waterC7 frogC7b = true := by
  refine ((claim_C7 waterC7 frogC7b).2.2 ?_).mpr (by simp [Water.frogOnLog, waterC7])
  simp [waterC7, frogC7b, GObj.collides, GObj.bbox, Frog.toGObj, Frog.curHitbox,
    zeroHB8, List.replicate, Hitbox.zero]
  norm_num

theorem creLoop_main (point : ℚ × ℚ) (k : Key) :
    ∀ (items : List (ℕ × GObj)) (l : Lane) (fy : ℚ),
      ((creLoop point k items l fy).1 = l ∧ (creLoop point k items l fy).2.2 = false) ∨
      (∃ i o, (i, o) ∈ items ∧ l.openexits.contains i = true ∧
        o.containsPt point = true ∧ k ≠ .down ∧
        (creLoop point k items l fy).1 =
          { l with openexits := l.openexits.erase i,
                   closedexits := l.closedexits ++ [i],
                   safefrogs := l.safefrogs ++ [(o.x, o.y)] } ∧
        (creLoop point k items l fy).2.2 = true) := by
  intro items
  induction items with
  | nil => intro l fy; left; exact ⟨rfl, rfl⟩
  | cons io rest ih =>
    intro l fy
    obtain ⟨i, o⟩ := io
    by_cases h1 : (o.containsPt point && l.openexits.contains i && decide (k ≠ .down)) = true
    · right
      obtain ⟨⟨hcont, hopen⟩, hk⟩ :
          (o.containsPt point = true ∧ l.openexits.contains i = true) ∧ k ≠ .down := by
        simpa [Bool.and_eq_true] using h1
      refine ⟨i, o, by simp, hopen, hcont, hk, ?_, ?_⟩
      · show (creLoop point k ((i, o) :: rest) l fy).1 = _
        simp only [creLoop]
        rw [if_pos h1]
      · show (creLoop point k ((i, o) :: rest) l fy).2.2 = _
        simp only [creLoop]
        rw [if_pos h1]
    · by_cases h2 : (o.containsPt point && l.openexits.contains i && decide (k = .down)) = true
      · have hred : creLoop point k ((i, o) :: rest) l fy =
            creLoop point k rest l (fy + GRID_SIZE) := by
          simp only [creLoop]
          rw [if_neg h1, if_pos h2]
        rw [hred]
        rcases ih l (fy + GRID_SIZE) with h | ⟨i1, o1, hmem, hrest⟩
        · left; exact h
        · right; exact ⟨i1, o1, by simp [hmem], hrest⟩
      · have hred : creLoop point k ((i, o) :: rest) l fy =
            creLoop point k rest l fy := by
          simp only [creLoop]
          rw [if_neg h1, if_neg h2]
        rw [hred]
        rcases ih l fy with h | ⟨i1, o1, hmem, hrest⟩
        · left; exact h
        · right; exact ⟨i1, o1, by simp [hmem], hrest⟩

theorem exitInv_step (l : Lane) (op : HedgeOp)
    (hnd : l.openexits.Nodup) (hcnd : l.closedexits.Nodup)
    (hdisj : ∀ i ∈ l.closedexits, i ∉ l.openexits) :
    (∀ i, i ∈ (applyOp l op).openexits → i ∈ l.openexits) ∧
    (∀ i, (i ∈ (applyOp l op).openexits ∨ i ∈ (applyOp l op).closedexits) ↔
          (i ∈ l.openexits ∨ i ∈ l.closedexits)) ∧
    (applyOp l op).openexits.Nodup ∧ (applyOp l op).closedexits.Nodup ∧
    (∀ i ∈ (applyOp l op).closedexits, i ∉ (applyOp l op).openexits) := by
  cases op with
  | tick dt =>
    refine ⟨fun i h => ?_, fun i => ?_, ?_, ?_, fun i h => ?_⟩ <;>
      simp_all [applyOp, Lane.update]
  | reached f k =>
    have hloop := creLoop_main (f.x, f.y) k l.objs.enum l f.y
    have happ : applyOp l (.reached f k) = (creLoop (f.x, f.y) k l.objs.enum l f.y).1 := rfl
    rcases hloop with ⟨heq, _⟩ | ⟨i, o, _, hopen, _, _, heq, _⟩
    · rw [happ, heq]
      exact ⟨fun _ h => h, fun _ => Iff.rfl, hnd, hcnd, hdisj⟩
    · rw [happ, heq]
      have hopenMem : i ∈ l.openexits := by
        simpa using hopen
      have hinotclosed : i ∉ l.closedexits := fun hc => hdisj i hc hopenMem
      refine ⟨fun j h => List.mem_of_mem_erase h, fun j => ?_, hnd.erase i, ?_, ?_⟩
      · constructor
        · rintro (h | h)
          · exact Or.inl (List.mem_of_mem_erase h)
          · rcases List.mem_append.mp h with h | h
            · exact Or.inr h
            · simp at h
              subst h
              exact Or.inl hopenMem
        · rintro (h | h)
          · by_cases hji : j = i
            · subst hji
              exact Or.inr (List.mem_append.mpr (Or.inr (by simp)))
            · exact Or.inl ((List.mem_erase_of_ne hji).mpr h)
          · exact Or.inr (List.mem_append.mpr (Or.inl h))
      · rw [List.nodup_append]
        exact ⟨hcnd, by simp, by
          intro a ha hb
          simp at hb
          subst hb
          exact hinotclosed ha⟩
      · intro j hj
        rcases List.mem_append.mp hj with h | h
        · intro hmem
          exact hdisj j h (List.mem_of_mem_erase hmem)
        · simp at h
          subst h
          intro hmem
          exact absurd (hnd.mem_erase_iff.mp hmem).1 (by simp)

theorem exitInv_ops :
    ∀ (ops : List HedgeOp) (l : Lane),
      l.openexits.Nodup → l.closedexits.Nodup →
      (∀ i ∈ l.closedexits, i ∉ l.openexits) →
      (∀ i, i ∈ (applyOps l ops).openexits → i ∈ l.openexits) ∧
      (∀ i, (i ∈ (applyOps l ops).openexits ∨ i ∈ (applyOps l ops).closedexits) ↔
            (i ∈ l.openexits ∨ i ∈ l.closedexits)) ∧
      (applyOps l ops).openexits.Nodup ∧ (applyOps l ops).closedexits.Nodup ∧
      (∀ i ∈ (applyOps l ops).closedexits, i ∉ (applyOps l ops).openexits) := by
  intro ops
  induction ops with
  | nil =>
    intro l hnd hcnd hdisj
    exact ⟨fun _ h => h, fun _ => Iff.rfl, hnd, hcnd, hdisj⟩
  | cons op rest ih =>
    intro l hnd hcnd hdisj
    have hstep := exitInv_step l op hnd hcnd hdisj
    have hrec := ih (applyOp l op) hstep.2.2.1 hstep.2.2.2.1 hstep.2.2.2.2
    have happs : applyOps l (op :: rest) = applyOps (applyOp l op) rest := rfl
    rw [happs]
    exact ⟨fun i h => hstep.1 i (hrec.1 i h),
      fun i => (hrec.2.1 i).trans (hstep.2.1 i),
      hrec.2.2.1, hrec.2.2.2.1, hrec.2.2.2.2⟩

/-- C5: over any sequence of hedge operations (getReachedExit calls and
lane-motion ticks) starting from a hedge lane with duplicate-free, disjoint
open and closed exit lists: (1) exits are never re-opened — the open list
only shrinks; (2) the combined set of exits is fixed at construction —
identical before and after; (3) the closed list stays duplicate-free, so
each exit transitions open to closed at most once; (4) a closed exit is
never in the open list; (5) isHedgeFull() only transitions false to true,
never back; and (6)/(7) willReachExit and getReachedExit can only answer
true in virtue of an exit currently in the open list containing the query
point (with a non-'down' key) — so they return false for every closed
exit. -/
theorem claim_C5 (l : Lane) (ops : List HedgeOp)
    (hnd : l.openexits.Nodup) (hcnd : l.closedexits.Nodup)
    (hdisj : ∀ i ∈ l.closedexits, i ∉ l.openexits) :
    (∀ i, i ∈ (applyOps l ops).openexits → i ∈ l.openexits) ∧
    (∀ i, (i ∈ (applyOps l ops).openexits ∨ i ∈ (applyOps l ops).closedexits) ↔
          (i ∈ l.openexits ∨ i ∈ l.closedexits)) ∧
    (applyOps l ops).closedexits.Nodup ∧
    (∀ i ∈ (applyOps l ops).closedexits, i ∉ (applyOps l ops).openexits) ∧
    (Hedge.isHedgeFull l = true → Hedge.isHedgeFull (applyOps l ops) = true) ∧
    (∀ f k, Hedge.willReachExit (applyOps l ops) f k = true →
      k ≠ .down ∧ ∃ io ∈ (applyOps l ops).objs.enum,
        (applyOps l ops).openexits.contains io.1 = true ∧
        io.2.containsPt (destPoint k f) = true) ∧
    (∀ f k, (Hedge.getReachedExit (applyOps l ops) f k).2.2 = true →
      k ≠ .down ∧ ∃ io ∈ (applyOps l ops).objs.enum,
        (applyOps l ops).openexits.contains io.1 = true ∧
        io.2.containsPt (f.x, f.y) = true) := by
  have hinv := exitInv_ops ops l hnd hcnd hdisj
  refine ⟨hinv.1, hinv.2.1, hinv.2.2.2.1, hinv.2.2.2.2, ?_, ?_, ?_⟩
  · intro hfull
    have hempty : l.openexits = [] := by simpa [Hedge.isHedgeFull] using hfull
    have : (applyOps l ops).openexits = [] := by
      rw [List.eq_nil_iff_forall_not_mem]
      intro i hi
      have := hinv.1 i hi
      rw [hempty] at this
      simp at this
    simp [Hedge.isHedgeFull, this]
  · intro f k h
    simp only [Hedge.willReachExit, List.any_eq_true, Bool.and_eq_true,
      decide_eq_true_eq] at h
    obtain ⟨io, hmem, ⟨hcont, hopen⟩, hk⟩ := h
    exact ⟨hk, io, hmem, hopen, hcont⟩
  · intro f k h
    have hloop := creLoop_main (f.x, f.y) k
      (applyOps l ops).objs.enum (applyOps l ops) f.y
    have hval : (Hedge.getReachedExit (applyOps l ops) f k).2.2 =
        (creLoop (f.x, f.y) k (applyOps l ops).objs.enum (applyOps l ops) f.y).2.2 := rfl
    rw [hval] at h
    rcases hloop with ⟨_, hfalse⟩ | ⟨i, o, hmem, hopen, hcont, hk, _, _⟩
    · rw [hfalse] at h; cases h
    · exact ⟨hk, (i, o), hmem, hopen, hcont⟩

/-- Witness for C5: closing the first exit of hedgeC5 keeps the closed list
duplicate-free. -/
theorem claim_C5_w :
    (applyOps hedgeC5 [HedgeOp.reached frogC5 Key.up]).closedexits.Nodup :=
  (claim_C5 hedgeC5 [HedgeOp.reached frogC5 Key.up]
    (by simp [hedgeC5]) (by simp [hedgeC5]) (by simp [hedgeC5])).2.2.1

end Froggit
